import Mathlib

/-!
Shallow embedding of the Foundry Local provider adapter
(`amplifier_module_provider_foundry_local/__init__.py` and `_constants.py`).

Pure translation logic (model-alias resolution, message/tool conversion,
wire-parameter preparation, response conversion) is embedded as executable
Lean functions. Fallible Python operations (`json.loads`, indexing) return
`Except`/`Option`. The single timeout-wrapped network call of `complete`
is modelled by an oracle giving the outcome of the k-th call, so that the
number of calls made is part of the embedding.
-/

namespace FoundryLocal

/-- JSON values, the shape that the Python `json.loads` result takes.
Numbers are modelled as integers; float literals are outside the model. -/
inductive Json where
  | null
  | bool (b : Bool)
  | num (n : Int)
  | str (s : String)
  | arr (xs : List Json)
  | obj (kvs : List (String × Json))
deriving Repr

/-- Opening brace character, kept out of string literals. -/
def lbrace : Char := Char.ofNat 123

/-- Closing brace character, kept out of string literals. -/
def rbrace : Char := Char.ofNat 125

/-- Skip JSON whitespace. -/
def skipWs : List Char → List Char
  | c :: cs => if c = ' ' || c = '\t' || c = '\n' || c = '\r' then skipWs cs else c :: cs
  | [] => []

/-- Parse the body of a JSON string literal after the opening quote, up to
the closing quote; handles the simple escapes. Returns the decoded
characters and the remaining input. -/
def parseStringAux : List Char → Option (List Char × List Char)
  | [] => none
  | '"' :: cs => some ([], cs)
  | '\\' :: e :: cs =>
    let esc : Option Char :=
      if e = '"' then some '"'
      else if e = '\\' then some '\\'
      else if e = '/' then some '/'
      else if e = 'n' then some '\n'
      else if e = 't' then some '\t'
      else if e = 'r' then some '\r'
      else if e = 'b' then some (Char.ofNat 8)
      else if e = 'f' then some (Char.ofNat 12)
      else none
    match esc with
    | some ch => (parseStringAux cs).map (fun p => (ch :: p.1, p.2))
    | none => none
  | c :: cs => (parseStringAux cs).map (fun p => (c :: p.1, p.2))

/-- Accumulate decimal digits. -/
def digitsToNat (acc : Nat) : List Char → (Nat × List Char)
  | c :: cs => if c.isDigit then digitsToNat (acc * 10 + (c.toNat - 48)) cs else (acc, c :: cs)
  | [] => (acc, [])

/-- Parse an integer JSON number (float forms are outside the model). -/
def parseNum (cs : List Char) : Option (Json × List Char) :=
  let (neg, cs1) : Bool × List Char :=
    match cs with
    | '-' :: rest => (true, rest)
    | _ => (false, cs)
  match cs1 with
  | c :: _ =>
    if c.isDigit then
      let (n, rest) := digitsToNat 0 cs1
      match rest with
      | '.' :: _ => none
      | 'e' :: _ => none
      | 'E' :: _ => none
      | _ => some (.num (if neg then -(n : Int) else (n : Int)), rest)
    else none
  | [] => none

mutual

/-- Parse one JSON value; fuel bounds the recursion. -/
def parseVal : Nat → List Char → Option (Json × List Char)
  | 0, _ => none
  | Nat.succ fuel, cs =>
    match skipWs cs with
    | 'n' :: 'u' :: 'l' :: 'l' :: rest => some (.null, rest)
    | 't' :: 'r' :: 'u' :: 'e' :: rest => some (.bool true, rest)
    | 'f' :: 'a' :: 'l' :: 's' :: 'e' :: rest => some (.bool false, rest)
    | '"' :: rest => (parseStringAux rest).map (fun p => (.str (String.mk p.1), p.2))
    | c :: rest =>
      if c = lbrace then
        match skipWs rest with
        | d :: r2 =>
          if d = rbrace then some (.obj [], r2)
          else (parseObjItems fuel (d :: r2)).map (fun p => (.obj p.1, p.2))
        | [] => none
      else if c = '[' then
        match skipWs rest with
        | ']' :: r2 => some (.arr [], r2)
        | r2 => (parseArrItems fuel r2).map (fun p => (.arr p.1, p.2))
      else parseNum (c :: rest)
    | [] => none

/-- Parse the comma-separated elements of a nonempty JSON array, including
the closing bracket. -/
def parseArrItems : Nat → List Char → Option (List Json × List Char)
  | 0, _ => none
  | Nat.succ fuel, cs =>
    match parseVal fuel cs with
    | none => none
    | some (v, rest) =>
      match skipWs rest with
      | ',' :: r2 => (parseArrItems fuel r2).map (fun p => (v :: p.1, p.2))
      | ']' :: r2 => some ([v], r2)
      | _ => none

/-- Parse the comma-separated members of a nonempty JSON object, including
the closing brace. -/
def parseObjItems : Nat → List Char → Option (List (String × Json) × List Char)
  | 0, _ => none
  | Nat.succ fuel, cs =>
    match skipWs cs with
    | '"' :: rest =>
      match parseStringAux rest with
      | none => none
      | some (key, r1) =>
        match skipWs r1 with
        | ':' :: r2 =>
          match parseVal fuel r2 with
          | none => none
          | some (v, r3) =>
            match skipWs r3 with
            | ',' :: r4 => (parseObjItems fuel r4).map (fun p => ((String.mk key, v) :: p.1, p.2))
            | d :: r4 => if d = rbrace then some ([(String.mk key, v)], r4) else none
            | [] => none
        | _ => none
    | _ => none

end

/-- Model of the Python `json.loads`: parse a complete JSON document, or
`none` where `json.loads` raises `JSONDecodeError`. -/
def jsonLoads (s : String) : Option Json :=
  match parseVal (s.length + 1) s.data with
  | some (v, rest) => if skipWs rest = [] then some v else none
  | none => none

/-! ## Constants (`_constants.py`) -/

/-- `DEFAULT_MODEL` from `_constants.py`. -/
def DEFAULT_MODEL : String := "qwen2.5-7b-instruct-generic-gpu:4"

/-- `DEFAULT_MAX_TOKENS` from `_constants.py`. -/
def DEFAULT_MAX_TOKENS : Nat := 2048

/-- The rational 0.7, written as a normalized fraction so that the
kernel can evaluate comparisons on it. -/
def ratPoint7 : Rat := ⟨7, 10, by decide, by decide⟩

/-- `DEFAULT_TEMPERATURE` from `_constants.py` (0.7 as a rational). -/
def DEFAULT_TEMPERATURE : Rat := ratPoint7

/-- `DEFAULT_TIMEOUT` from `_constants.py`. -/
def DEFAULT_TIMEOUT : Rat := 30

/-! ## Framework-side data model (`amplifier_core` shapes as the adapter uses them) -/

/-- Message roles of the framework `Message` model. -/
inductive Role where
  | system
  | user
  | assistant
  | tool
deriving Repr, DecidableEq

/-- A framework chat message as the adapter reads it after `model_dump`:
role, string content, and the tool fields used for role `tool`.
`none` models a missing dictionary key, read back through `dict.get`
with the defaults the source supplies. -/
structure Message where
  role : Role
  content : String
  tool_name : Option String := none
  tool_call_id : Option String := none
deriving Repr, DecidableEq

/-- A framework tool specification: `name`, `description` (optional) and
the JSON-schema `parameters` object. -/
structure ToolSpec where
  name : String
  description : Option String := none
  parameters : Json
deriving Repr

/-- A framework `ChatRequest` as the adapter reads it. `tools = []` models
both an absent and an empty tool list (both falsy in the source).
`max_output_tokens` and `temperature` are optional; temperatures are
rationals since the adapter only copies and zero-tests them. -/
structure ChatRequest where
  messages : List Message
  tools : List ToolSpec := []
  max_output_tokens : Option Nat := none
  temperature : Option Rat := none
deriving Repr

/-- The configuration-mapping keys the constructor reads (`__init__`,
lines 129-142); `none` models an absent key, read via `config.get`. -/
structure Config where
  default_model : Option String := none
  max_tokens : Option Nat := none
  temperature : Option Rat := none
  timeout : Option Rat := none
deriving Repr, DecidableEq

/-- The adapter fields relevant to request translation, as set by
`FoundryLocalProvider.__init__` from the configuration with the
fallback constants. -/
structure Provider where
  default_model : String
  max_tokens : Nat
  temperature : Rat
  timeout : Rat
deriving Repr, DecidableEq

/-- `__init__` lines 130-135: each field is `config.get(key, DEFAULT)`. -/
def Provider.ofConfig (cfg : Config) : Provider :=
  { default_model := cfg.default_model.getD DEFAULT_MODEL
    max_tokens := cfg.max_tokens.getD DEFAULT_MAX_TOKENS
    temperature := cfg.temperature.getD DEFAULT_TEMPERATURE
    timeout := cfg.timeout.getD DEFAULT_TIMEOUT }

/-! ## Wire-side data model (OpenAI-format dictionaries the adapter builds) -/

/-- One entry of the `messages` array built by
`_convert_messages_to_openai`; `tool_call_id` is present only for tool
messages. -/
structure OAMessage where
  role : String
  content : String
  tool_call_id : Option String := none
deriving Repr, DecidableEq

/-- The `function` member of a wire tool entry
(`_convert_tools_from_request`). -/
structure OAFunction where
  name : String
  description : String
  parameters : Json
deriving Repr

/-- One entry of the wire `tools` list. -/
structure OATool where
  type : String
  function : OAFunction
deriving Repr

/-- The keyword-argument dictionary `_prepare_openai_params` returns and
`complete` splats into the vendor client call. An `Option` field set to
`none` models an absent key. -/
structure OAParams where
  model : String
  messages : List OAMessage
  system : Option String := none
  max_tokens : Option Nat := none
  temperature : Option Rat := none
  tools : Option (List OATool) := none
  tool_choice : Option String := none
  parallel_tool_calls : Option Bool := none
deriving Repr

/-- The set of keys present in a wire-parameter dictionary. -/
def OAParams.keys (p : OAParams) : List String :=
  ["model", "messages"]
    ++ (if p.system.isSome then ["system"] else [])
    ++ (if p.max_tokens.isSome then ["max_tokens"] else [])
    ++ (if p.temperature.isSome then ["temperature"] else [])
    ++ (if p.tools.isSome then ["tools"] else [])
    ++ (if p.tool_choice.isSome then ["tool_choice"] else [])
    ++ (if p.parallel_tool_calls.isSome then ["parallel_tool_calls"] else [])

/-- The `**kwargs` of `complete`/`_prepare_openai_params`, restricted to
the keys the source reads; `none` models an absent key. -/
structure Kwargs where
  model : Option String := none
  max_tokens : Option Nat := none
  temperature : Option Rat := none
  tool_choice : Option String := none
  parallel_tool_calls : Option Bool := none
deriving Repr

/-! ## Model-alias resolution -/

/-- The static alias-to-identifier table of `_resolve_model_alias_to_id`
(lines 600-624), verbatim. -/
def alias_to_id : List (String × String) :=
  [("qwen2.5-7b", "qwen2.5-7b-instruct-generic-gpu:4"),
   ("qwen2.5-0.5b", "qwen2.5-0.5b-instruct-generic-gpu:4"),
   ("qwen2.5-1.5b", "qwen2.5-1.5b-instruct-generic-gpu:4"),
   ("qwen2.5-14b", "qwen2.5-14b-instruct-generic-gpu:4"),
   ("qwen2.5-coder-0.5b", "qwen2.5-coder-0.5b-instruct-generic-gpu:4"),
   ("qwen2.5-coder-1.5b", "qwen2.5-coder-1.5b-instruct-generic-gpu:4"),
   ("qwen2.5-coder-7b", "qwen2.5-coder-7b-instruct-generic-gpu:4"),
   ("qwen2.5-coder-14b", "qwen2.5-coder-14b-instruct-generic-gpu:4"),
   ("phi-4", "phi-4-generic-gpu:1"),
   ("phi-4-mini", "phi-4-mini-instruct-generic-gpu:5"),
   ("phi-4-mini-reasoning", "phi-4-mini-reasoning-generic-gpu:3"),
   ("phi-3.5-mini", "phi-3.5-mini-instruct-generic-gpu:1"),
   ("phi-3-mini-128k", "phi-3-mini-128k-instruct-generic-gpu:1"),
   ("phi-3-mini-4k", "phi-3-mini-4k-instruct-generic-gpu:1"),
   ("mistral-7b-v0.2", "mistralai-Mistral-7B-Instruct-v0-2-generic-gpu:1"),
   ("deepseek-r1-14b", "deepseek-r1-distill-qwen-14b-generic-gpu:3"),
   ("deepseek-r1-7b", "deepseek-r1-distill-qwen-7b-generic-gpu:3"),
   ("gpt-oss-20b", "gpt-oss-20b-generic-cpu:1")]

/-- `_resolve_model_alias_to_id`: table lookup, else the alias unchanged. -/
def resolve_model_alias_to_id (modelAlias : String) : String :=
  (alias_to_id.lookup modelAlias).getD modelAlias

/-- A management handle for model resolution: for an alias, `some id`
when `get_model_info` succeeds with an `id` attribute, `none` when it
raises or yields nothing usable. -/
def Manager : Type := String → Option String

/-- `_resolve_model_with_sdk`: try the management handle, fall back to
the static table resolution. -/
def resolve_model_with_sdk (manager : Option Manager) (modelAlias : String) : String :=
  match manager with
  | some getModelId =>
    match getModelId modelAlias with
    | some modelId => modelId
    | none => resolve_model_alias_to_id modelAlias
  | none => resolve_model_alias_to_id modelAlias

/-! ## Message, tool and parameter translation -/

/-- Wire role string of a framework role. -/
def Role.toWire : Role → String
  | .system => "system"
  | .user => "user"
  | .assistant => "assistant"
  | .tool => "tool"

/-- `_convert_messages_to_openai`: system messages are skipped, tool
messages become role-`tool` entries with the originating tool name
prefixed to the content, user and assistant messages pass through. -/
def convert_messages_to_openai (messages : List Message) : List OAMessage :=
  messages.filterMap fun m =>
    match m.role with
    | .system => none
    | .tool =>
      some { role := "tool"
             tool_call_id := some (m.tool_call_id.getD "")
             content := "[Tool: " ++ m.tool_name.getD "unknown" ++ "]\n" ++ m.content }
    | .user => some { role := "user", content := m.content }
    | .assistant => some { role := "assistant", content := m.content }

/-- `_convert_request_to_openai`: keep only user, assistant and tool
messages, then convert them. -/
def convert_request_to_openai (request : ChatRequest) : List OAMessage :=
  convert_messages_to_openai
    (request.messages.filter fun m =>
      m.role = Role.user ∨ m.role = Role.assistant ∨ m.role = Role.tool)

/-- `_convert_tools_from_request`: each tool spec becomes a
`type: function` entry; a missing description becomes the empty string
(`tool.description or ""`). -/
def convert_tools_from_request (tools : List ToolSpec) : List OATool :=
  tools.map fun t =>
    { type := "function"
      function :=
        { name := t.name
          description := t.description.getD ""
          parameters := t.parameters } }

/-- Python truthiness of an optional number: `None` and `0` are falsy. -/
def truthyNat : Option Nat → Bool
  | some n => n ≠ 0
  | none => false

/-- Model of the Python `sep.join(xs)`. -/
def joinSep (sep : String) : List String → String
  | [] => ""
  | [s] => s
  | s :: rest => s ++ sep ++ joinSep sep rest

/-- `_prepare_openai_params` (lines 867-903), including the Python
truthiness tests: the `system` key is set only when the joined
instructions string is nonempty, `max_tokens` follows
`if request.max_output_tokens:` then the walrus `elif`, `temperature`
follows `if request.temperature is not None:` then the walrus `elif`,
and the tool keys are set only when the request carries tools. -/
def prepare_openai_params (p : Provider) (model : String) (openaiMessages : List OAMessage)
    (request : ChatRequest) (kw : Kwargs) : OAParams :=
  let systemMsgs := request.messages.filter fun m => m.role = Role.system
  let instructions : Option String :=
    if systemMsgs ≠ [] then
      some (joinSep "\n\n" (systemMsgs.map Message.content))
    else none
  let maxTokensField : Option Nat :=
    if truthyNat request.max_output_tokens then request.max_output_tokens
    else
      let mt := kw.max_tokens.getD p.max_tokens
      if mt ≠ 0 then some mt else none
  let temperatureField : Option Rat :=
    match request.temperature with
    | some t => some t
    | none =>
      let tv := kw.temperature.getD p.temperature
      if tv ≠ 0 then some tv else none
  { model := model
    messages := openaiMessages
    system := match instructions with
      | some s => if s ≠ "" then some s else none
      | none => none
    max_tokens := maxTokensField
    temperature := temperatureField
    tools := if request.tools.isEmpty then none else some (convert_tools_from_request request.tools)
    tool_choice := if request.tools.isEmpty then none else some (kw.tool_choice.getD "auto")
    parallel_tool_calls :=
      if request.tools.isEmpty then none else some (kw.parallel_tool_calls.getD true) }

/-! ## Vendor response model and response conversion -/

/-- The `function` member of a vendor tool call: a name and a raw JSON
arguments string. -/
structure OAToolCallFunction where
  name : String
  arguments : String
deriving Repr, DecidableEq

/-- One tool call of the vendor response message. -/
structure OAToolCall where
  id : String
  function : OAToolCallFunction
deriving Repr, DecidableEq

/-- The message of a vendor response choice; `tool_calls = []` models
both an absent and an empty list (both falsy in the source). -/
structure OAResponseMessage where
  content : Option String := none
  tool_calls : List OAToolCall := []
deriving Repr, DecidableEq

/-- One choice of the vendor response. -/
structure OAChoice where
  message : OAResponseMessage
  finish_reason : Option String := none
deriving Repr, DecidableEq

/-- The usage object of the vendor response, with the attribute names the
source reads. -/
structure OAUsage where
  input_tokens : Nat
  output_tokens : Nat
  total_tokens : Nat
deriving Repr, DecidableEq

/-- A vendor chat-completion response as the adapter reads it. -/
structure OAResponse where
  choices : List OAChoice
  usage : Option OAUsage := none
deriving Repr, DecidableEq

/-- Python exceptions the embedded operations can raise. -/
inductive PyError where
  | indexError
  | jsonDecodeError (s : String)
deriving Repr, DecidableEq

/-- Content blocks of the framework `ChatResponse`: `TextBlock` and
`ToolCallBlock`. -/
inductive ContentBlock where
  | text (t : String)
  | toolCall (id : String) (name : String) (input : Json)
deriving Repr

/-- A framework resolved tool call with parsed JSON arguments. -/
structure ToolCall where
  id : String
  name : String
  arguments : Json
deriving Repr

/-- The framework `Usage` object the adapter constructs. -/
structure UsageInfo where
  input_tokens : Nat
  output_tokens : Nat
  total_tokens : Nat
deriving Repr, DecidableEq

/-- The framework `ChatResponse` the adapter constructs. -/
structure ChatResponse where
  content : List ContentBlock
  tool_calls : Option (List ToolCall) := none
  usage : UsageInfo
  finish_reason : Option String := none
deriving Repr

/-- The tool-call loop of `_convert_openai_response_to_chat_response`
(lines 692-704): each vendor tool call yields a content block and a
resolved tool call, and a `json.loads` failure raises. -/
def parseToolCallList : List OAToolCall → Except PyError (List (ContentBlock × ToolCall))
  | [] => .ok []
  | tc :: rest =>
    match jsonLoads tc.function.arguments with
    | none => .error (.jsonDecodeError tc.function.arguments)
    | some v =>
      (parseToolCallList rest).map fun xs =>
        (ContentBlock.toolCall tc.id tc.function.name v,
          { id := tc.id, name := tc.function.name, arguments := v }) :: xs

/-- `_convert_openai_response_to_chat_response` (lines 674-718):
`choices[0]` raises on an empty list; a truthy text content becomes a
text block; tool calls become blocks and resolved calls with parsed
arguments; usage counters are copied with a zero fallback when usage is
absent; the finish reason is copied. -/
def convert_openai_response_to_chat_response (response : OAResponse) :
    Except PyError ChatResponse :=
  match response.choices with
  | [] => .error .indexError
  | choice :: _ =>
    let message := choice.message
    let textBlocks : List ContentBlock :=
      match message.content with
      | some c => if c ≠ "" then [.text c] else []
      | none => []
    match parseToolCallList message.tool_calls with
    | .error e => .error e
    | .ok pairs =>
      let toolCalls := pairs.map Prod.snd
      .ok
        { content := textBlocks ++ pairs.map Prod.fst
          tool_calls := if toolCalls.isEmpty then none else some toolCalls
          usage :=
            match response.usage with
            | some u =>
              { input_tokens := u.input_tokens
                output_tokens := u.output_tokens
                total_tokens := u.total_tokens }
            | none => { input_tokens := 0, output_tokens := 0, total_tokens := 0 }
          finish_reason := choice.finish_reason }

/-- A vendor response with a single choice holding one tool call: the
response shape of the tool-call examples of the spec. -/
def oneToolCallResponse (id name args : String) (content : Option String)
    (fr : Option String) (u : OAUsage) : OAResponse :=
  { choices :=
      [{ message :=
           { content := content
             tool_calls := [{ id := id, function := { name := name, arguments := args } }] }
         finish_reason := fr }]
    usage := some u }

/-! ## Model listing (`list_models`, lines 372-457) -/

/-- A framework `ModelInfo` as `list_models` constructs it. -/
structure ModelInfo where
  id : String
  display_name : String
  context_window : Nat
  max_output_tokens : Nat
  capabilities : List String
  defaults_max_tokens : Nat
  defaults_temperature : Rat
deriving Repr, DecidableEq

/-- Substring test on strings (the Python `in` operator). -/
def strContains (hay needle : String) : Bool :=
  decide (needle.data <:+: hay.data)

/-- The `common_aliases` list of `list_models`, verbatim. -/
def common_aliases : List String :=
  ["qwen2.5-7b", "qwen2.5-0.5b", "phi-4-mini", "qwen2.5-14b",
   "phi-3.5-mini", "phi-3-mini-128k", "phi-3-mini-4k",
   "mistral-7b-v0.2", "deepseek-r1-14b", "deepseek-r1-7b",
   "qwen2.5-coder-0.5b", "qwen2.5-coder-1.5b", "qwen2.5-coder-7b",
   "qwen2.5-coder-14b", "phi-4-mini-reasoning", "gpt-oss-20b"]

/-- Outcome of `manager.get_model_info(alias)` inside the per-alias
`try`: it raises, returns a falsy object, or returns an object with an
optional truthy `display_name`. -/
inductive AliasResult where
  | throws
  | noInfo
  | info (display_name : Option String)
deriving Repr

/-- The discovery world `list_models` runs in: a management handle with
a per-alias behavior, no handle (static fallback), or an exception
reaching the outer handler before any model is accumulated. -/
inductive Discovery where
  | manager (f : String → AliasResult)
  | noManager
  | outerException
deriving Inhabited

/-- The `ModelInfo` built for a resolved alias in the manager branch
(lines 397-413): capability tags, a `fast` tag for small models, and
size-dependent output limits. -/
def mkDiscoveredModel (modelAlias : String) (displayName : Option String) : ModelInfo :=
  let capabilities :=
    ["tools", "streaming", "offline", "hardware_optimized"]
      ++ (if strContains modelAlias "0.5b" || strContains modelAlias "1.5b"
            || strContains modelAlias "mini" then ["fast"] else [])
  { id := modelAlias
    display_name := (displayName.filter (· ≠ "")).getD modelAlias
    context_window := 32768
    max_output_tokens :=
      if strContains modelAlias "7b" || strContains modelAlias "14b" then 2048 else 1024
    capabilities := capabilities
    defaults_max_tokens := 1024
    defaults_temperature := ratPoint7 }

/-- The static fallback model table of `list_models` (lines 420-451). -/
def static_models : List ModelInfo :=
  [{ id := "qwen2.5-7b"
     display_name := "Qwen 2.5 (7B)"
     context_window := 32768
     max_output_tokens := 2048
     capabilities := ["tools", "streaming", "offline", "hardware_optimized"]
     defaults_max_tokens := 1024
     defaults_temperature := ratPoint7 },
   { id := "qwen2.5-0.5b"
     display_name := "Qwen 2.5 (0.5B)"
     context_window := 32768
     max_output_tokens := 1024
     capabilities := ["tools", "streaming", "offline", "fast", "hardware_optimized"]
     defaults_max_tokens := 1024
     defaults_temperature := ratPoint7 },
   { id := "phi-4-mini"
     display_name := "Phi-4 Mini"
     context_window := 4096
     max_output_tokens := 1024
     capabilities := ["tools", "streaming", "offline", "fast", "hardware_optimized"]
     defaults_max_tokens := 1024
     defaults_temperature := ratPoint7 }]

/-- The `try` body of `list_models`: the manager branch skips aliases
whose lookup raises or yields nothing, the fallback branch returns the
static table; an exception reaching the outer handler is an error. -/
def list_models_try_body : Discovery → Except PyError (List ModelInfo)
  | .manager f =>
    .ok (common_aliases.filterMap fun a =>
      match f a with
      | .throws => none
      | .noInfo => none
      | .info dn => some (mkDiscoveredModel a dn))
  | .noManager => .ok static_models
  | .outerException => .error .indexError

/-- `list_models` whole: the outer `except Exception` absorbs any
failure of the discovery step and falls through to returning the models
accumulated so far, which at the only escaping raise points is the
empty list. -/
def list_models (d : Discovery) : Except PyError (List ModelInfo) :=
  match list_models_try_body d with
  | .ok models => .ok models
  | .error _ => .ok []

/-! ## Provider metadata (`get_info`, lines 332-370) -/

/-- Default value of a configurable field: a string or a boolean. -/
inductive FieldDefault where
  | str (s : String)
  | bool (b : Bool)
deriving Repr, DecidableEq

/-- A framework `ConfigField` as `get_info` constructs it. -/
structure ConfigFieldInfo where
  id : String
  display_name : String
  field_type : String
  prompt : String
  choices : Option (List String) := none
  default : FieldDefault
deriving Repr, DecidableEq

/-- The `defaults` dictionary of the provider metadata. -/
structure ProviderDefaults where
  model : String
  max_tokens : Nat
  temperature : Rat
  timeout : Rat
  offline_only : Bool
deriving Repr, DecidableEq

/-- A framework `ProviderInfo` as `get_info` constructs it. -/
structure ProviderInfo where
  id : String
  display_name : String
  credential_env_vars : List String
  capabilities : List String
  defaults : ProviderDefaults
  config_fields : List ConfigFieldInfo
deriving Repr, DecidableEq

/-- `get_info`: a literal metadata record, a pure function of no state. -/
def get_info : ProviderInfo :=
  { id := "foundry-local"
    display_name := "Microsoft Foundry Local"
    credential_env_vars := []
    capabilities := ["streaming", "tools", "offline", "hardware_optimized"]
    defaults :=
      { model := "qwen2.5-7b-instruct-generic-gpu:4"
        max_tokens := 2048
        temperature := ratPoint7
        timeout := 30
        offline_only := true }
    config_fields :=
      [{ id := "default_model"
         display_name := "Default Model"
         field_type := "choice"
         prompt := "Select default model"
         choices := some ["qwen2.5-7b-instruct-generic-gpu:4",
                          "qwen2.5-0.5b-instruct-generic-gpu:4",
                          "phi-4-mini-instruct-generic-gpu:5",
                          "gpt-oss-20b-generic-cpu:1"]
         default := .str "qwen2.5-7b-instruct-generic-gpu:4" },
       { id := "auto_hardware_optimization"
         display_name := "Hardware Optimization"
         field_type := "boolean"
         prompt := "Automatically optimize for CPU/GPU/NPU"
         default := .bool true },
       { id := "offline_mode"
         display_name := "Offline Only"
         field_type := "boolean"
         prompt := "Require offline operation (no cloud fallback)"
         default := .bool true }] }

/-! ## `complete` (lines 459-530) -/

/-- Outcome of one awaited network call inside `asyncio.wait_for`. -/
inductive NetOutcome where
  | timeout
  | netError (e : String)
  | success (response : OAResponse)
deriving Repr

/-- The exceptions `complete` can re-raise: the caught
`asyncio.TimeoutError`, a transport/protocol exception from the vendor
client, or a Python error raised while converting the response (which
the generic `except Exception` handler also logs as an API error and
re-raises). -/
inductive CompleteExc where
  | timeoutErr
  | transport (e : String)
  | pyErr (e : PyError)
deriving Repr, DecidableEq

/-- Failure kinds of `complete` as the spec classifies them. -/
def CompleteExc.isTimeoutKind : CompleteExc → Bool
  | .timeoutErr => true
  | _ => false

/-- An exception handled by the generic `except Exception` handler,
logged as `API error: ...`. -/
def CompleteExc.isApiKind : CompleteExc → Bool
  | .transport _ => true
  | .pyErr _ => true
  | .timeoutErr => false

/-- The wire parameters `complete` passes to the vendor client call:
model resolution (SDK handle first, then the static table), request
translation, and parameter preparation. -/
def completeParams (p : Provider) (request : ChatRequest) (kw : Kwargs)
    (manager : Option Manager) : OAParams :=
  prepare_openai_params p
    (resolve_model_with_sdk manager (kw.model.getD p.default_model))
    (convert_request_to_openai request) request kw

/-- `complete`, with the network modelled by an oracle giving the
outcome of the k-th call on given wire parameters. The returned number
counts the network calls made; the code issues exactly one, on the
prepared parameters, consults only call 0, and maps its outcome: a
timeout is re-raised as the caught timeout exception, any other
transport error is re-raised unchanged, and on success the response
conversion runs (raising through the generic handler on failure). -/
def complete (p : Provider) (request : ChatRequest) (kw : Kwargs)
    (manager : Option Manager) (oracle : Nat → OAParams → NetOutcome) :
    Except CompleteExc ChatResponse × Nat :=
  let result : Except CompleteExc ChatResponse :=
    match oracle 0 (completeParams p request kw manager) with
    | .timeout => .error .timeoutErr
    | .netError e => .error (.transport e)
    | .success response =>
      match convert_openai_response_to_chat_response response with
      | .error e => .error (.pyErr e)
      | .ok chatResponse => .ok chatResponse
  (result, 1)

/-! ## Claims -/

/-- C2: for every discovery world, `list_models` returns normally — the
outer handler absorbs every failure of the discovery step — and when the
discovery step fails entirely the returned sequence is empty. -/
theorem C2_list_models_never_raises (d : Discovery) (e : PyError) :
    (∃ models, list_models d = .ok models) ∧
      (list_models_try_body d = .error e → list_models d = .ok []) := by
  constructor
  · cases h : list_models_try_body d with
    | ok models => exact ⟨models, by simp [list_models, h]⟩
    | error e2 => exact ⟨[], by simp [list_models, h]⟩
  · intro he
    simp [list_models, he]

/-- C2 witness: a discovery failure reaching the outer handler yields
the empty list, not an exception. -/
theorem C2_witness : list_models .outerException = .ok [] :=
  (C2_list_models_never_raises .outerException .indexError).2 rfl

/-- C3: a timeout of the network call makes `complete` re-raise the
caught timeout exception as a timeout-kind failure; any other transport
error is re-raised unchanged as an API-kind failure; exactly one network
call is issued, so no retry occurs. -/
theorem C3_complete_error_paths (p : Provider) (request : ChatRequest) (kw : Kwargs)
    (manager : Option Manager) (oracle : Nat → OAParams → NetOutcome) (e : String) :
    (oracle 0 (completeParams p request kw manager) = .timeout →
      (complete p request kw manager oracle).1 = .error .timeoutErr ∧
        CompleteExc.timeoutErr.isTimeoutKind = true) ∧
    (oracle 0 (completeParams p request kw manager) = .netError e →
      (complete p request kw manager oracle).1 = .error (.transport e) ∧
        (CompleteExc.transport e).isApiKind = true) ∧
    (complete p request kw manager oracle).2 = 1 := by
  refine ⟨fun h => ⟨?_, rfl⟩, fun h => ⟨?_, rfl⟩, rfl⟩ <;>
    simp [complete, h]

/-- C3 witness: concrete timeout and transport-error runs. -/
theorem C3_witness :
    (complete (Provider.ofConfig {}) { messages := [{ role := .user, content := "Hi" }] } {}
        none (fun _ _ => .timeout)).1 = .error .timeoutErr ∧
      (complete (Provider.ofConfig {}) { messages := [{ role := .user, content := "Hi" }] } {}
          none (fun _ _ => .netError "connection refused")).1
        = .error (.transport "connection refused") ∧
      (complete (Provider.ofConfig {}) { messages := [{ role := .user, content := "Hi" }] } {}
          none (fun _ _ => .timeout)).2 = 1 :=
  ⟨((C3_complete_error_paths _ _ _ _ _ "x").1 rfl).1,
   ((C3_complete_error_paths _ _ _ _ _ "connection refused").2.1 rfl).1,
   (C3_complete_error_paths _ _ _ _ (fun _ _ => .timeout) "x").2.2⟩

/-- C5: with no management handle, the alias qwen2.5-7b resolves through
the static table to qwen2.5-7b-instruct-generic-gpu:4, and every alias
absent from the table resolves to itself unchanged. -/
theorem C5_alias_resolution (modelAlias : String) :
    resolve_model_with_sdk none "qwen2.5-7b" = "qwen2.5-7b-instruct-generic-gpu:4" ∧
      (alias_to_id.lookup modelAlias = none →
        resolve_model_alias_to_id modelAlias = modelAlias ∧
          resolve_model_with_sdk none modelAlias = modelAlias) := by
  refine ⟨rfl, fun h => ?_⟩
  have h2 : resolve_model_alias_to_id modelAlias = modelAlias := by
    simp [resolve_model_alias_to_id, h]
  exact ⟨h2, h2⟩

/-- C5 witness: the tabulated alias and an untabulated alias. -/
theorem C5_witness :
    resolve_model_with_sdk none "qwen2.5-7b" = "qwen2.5-7b-instruct-generic-gpu:4" ∧
      resolve_model_alias_to_id "my-custom-model" = "my-custom-model" ∧
      resolve_model_with_sdk none "my-custom-model" = "my-custom-model" :=
  ⟨(C5_alias_resolution "my-custom-model").1,
   ((C5_alias_resolution "my-custom-model").2 rfl).1,
   ((C5_alias_resolution "my-custom-model").2 rfl).2⟩

/-- C7: when the configuration omits default_model, the adapter default
model and the model entry of the get_info defaults both equal the
built-in constant identifier. -/
theorem C7_default_model (cfg : Config) :
    cfg.default_model = none →
      (Provider.ofConfig cfg).default_model = DEFAULT_MODEL ∧
        get_info.defaults.model = DEFAULT_MODEL ∧
        DEFAULT_MODEL = "qwen2.5-7b-instruct-generic-gpu:4" := by
  intro h
  exact ⟨by simp [Provider.ofConfig, h], rfl, rfl⟩

/-- C7 witness: the empty configuration. -/
theorem C7_witness :
    (Provider.ofConfig {}).default_model = DEFAULT_MODEL ∧
      get_info.defaults.model = DEFAULT_MODEL ∧
      DEFAULT_MODEL = "qwen2.5-7b-instruct-generic-gpu:4" :=
  C7_default_model {} rfl

/-- C8: a request carrying two tool specifications yields wire
parameters whose tools list has exactly two type-function entries whose
name, description and parameters match the two specifications. -/
theorem C8_two_tools (p : Provider) (request : ChatRequest) (kw : Kwargs)
    (manager : Option Manager) (t1 t2 : ToolSpec) :
    request.tools = [t1, t2] →
      (completeParams p request kw manager).tools
          = some (convert_tools_from_request [t1, t2]) ∧
        (convert_tools_from_request [t1, t2]).length = 2 ∧
        (convert_tools_from_request [t1, t2]).map OATool.type = ["function", "function"] ∧
        (convert_tools_from_request [t1, t2]).map (fun t => t.function.name)
          = [t1.name, t2.name] ∧
        (convert_tools_from_request [t1, t2]).map (fun t => t.function.description)
          = [t1.description.getD "", t2.description.getD ""] ∧
        (convert_tools_from_request [t1, t2]).map (fun t => t.function.parameters)
          = [t1.parameters, t2.parameters] := by
  intro h
  refine ⟨?_, rfl, rfl, rfl, rfl, rfl⟩
  simp [completeParams, prepare_openai_params, h]

/-- C8 witness: two concrete tool specifications. -/
theorem C8_witness :
    (completeParams (Provider.ofConfig {})
        { messages := [{ role := .user, content := "Hi" }]
          tools := [{ name := "get_weather", description := some "Get weather"
                      parameters := Json.obj [("type", Json.str "object")] },
                    { name := "search", parameters := Json.obj [] }] } {} none).tools
        = some (convert_tools_from_request
            [{ name := "get_weather", description := some "Get weather"
               parameters := Json.obj [("type", Json.str "object")] },
             { name := "search", parameters := Json.obj [] }]) ∧
      (convert_tools_from_request
          [{ name := "get_weather", description := some "Get weather"
             parameters := Json.obj [("type", Json.str "object")] },
           { name := "search", parameters := Json.obj [] }]).length = 2 ∧
      (convert_tools_from_request
          [{ name := "get_weather", description := some "Get weather"
             parameters := Json.obj [("type", Json.str "object")] },
           { name := "search", parameters := Json.obj [] }]).map OATool.type
        = ["function", "function"] ∧
      (convert_tools_from_request
          [{ name := "get_weather", description := some "Get weather"
             parameters := Json.obj [("type", Json.str "object")] },
           { name := "search", parameters := Json.obj [] }]).map (fun t => t.function.name)
        = ["get_weather", "search"] ∧
      (convert_tools_from_request
          [{ name := "get_weather", description := some "Get weather"
             parameters := Json.obj [("type", Json.str "object")] },
           { name := "search", parameters := Json.obj [] }]).map
          (fun t => t.function.description)
        = ["Get weather", ""] ∧
      (convert_tools_from_request
          [{ name := "get_weather", description := some "Get weather"
             parameters := Json.obj [("type", Json.str "object")] },
           { name := "search", parameters := Json.obj [] }]).map
          (fun t => t.function.parameters)
        = [Json.obj [("type", Json.str "object")], Json.obj []] :=
  C8_two_tools _ _ _ _ _ _ rfl

/-- C1: evaluating the wire-parameter builder at a request holding one
system and one user message shows that the dictionary splatted into the
vendor call contains the key system, which lies outside the key set the
wire protocol admits; the repository test test_system_param_validation.py
records that this keyword makes the vendor client raise. -/
theorem C1_system_key_sent :
    "system" ∈ (completeParams (Provider.ofConfig {})
        { messages := [{ role := .system, content := "You are a helpful assistant." },
                       { role := .user, content := "Hello" }] } {} none).keys ∧
      "system" ∉ (["model", "messages", "max_tokens", "temperature", "tools",
        "tool_choice", "parallel_tool_calls"] : List String) := by
  decide

/-- C4 counterexample: with an empty system content, no instructions are
placed in the wire parameters at all, so the placed instructions string
does not equal the system content. -/
theorem C4_counterexample :
    (completeParams (Provider.ofConfig {})
        { messages := [{ role := .system, content := "" },
                       { role := .user, content := "Hi" }] } {} none).system = none ∧
      ¬ ((completeParams (Provider.ofConfig {})
        { messages := [{ role := .system, content := "" },
                       { role := .user, content := "Hi" }] } {} none).system = some "") := by
  decide

/-- C4 amended: for a request of one system and one user message, the
wire messages array contains no system-role entry; when the system
content is nonempty it is placed verbatim as the instructions string,
and when it is empty no instructions entry is placed. -/
theorem C4_system_message_translation (c u : String) (p : Provider) (kw : Kwargs)
    (manager : Option Manager) :
    (∀ m ∈ convert_request_to_openai
        { messages := [{ role := .system, content := c }, { role := .user, content := u }] },
      m.role ≠ "system") ∧
    (c ≠ "" → (completeParams p
        { messages := [{ role := .system, content := c }, { role := .user, content := u }] }
        kw manager).system = some c) ∧
    (c = "" → (completeParams p
        { messages := [{ role := .system, content := c }, { role := .user, content := u }] }
        kw manager).system = none) := by
  refine ⟨?_, fun hc => ?_, fun hc => ?_⟩
  · intro m hm
    simp [convert_request_to_openai, convert_messages_to_openai] at hm
    simp [hm]
  · simp [completeParams, prepare_openai_params, joinSep, hc]
  · subst hc
    simp [completeParams, prepare_openai_params, joinSep]

/-- C4 witness: a nonempty system content is placed verbatim. -/
theorem C4_witness :
    (completeParams (Provider.ofConfig {})
        { messages := [{ role := .system, content := "Answer briefly." },
                       { role := .user, content := "Hi" }] } {} none).system
      = some "Answer briefly." :=
  (C4_system_message_translation "Answer briefly." "Hi" (Provider.ofConfig {}) {} none).2.1
    (by decide)

/-- C6: for a vendor response with one tool call whose arguments string
parses, the translation yields exactly one resolved tool call with the
parsed arguments, a tool-call content block, a text block for truthy
text content, the copied usage counters and the copied finish reason. -/
theorem C6_response_translation (id name args : String) (v : Json)
    (content : Option String) (fr : Option String) (u : OAUsage) :
    jsonLoads args = some v →
      (convert_openai_response_to_chat_response
            (oneToolCallResponse id name args content fr u)).map ChatResponse.tool_calls
          = .ok (some [{ id := id, name := name, arguments := v }]) ∧
        (convert_openai_response_to_chat_response
            (oneToolCallResponse id name args content fr u)).map ChatResponse.usage
          = .ok { input_tokens := u.input_tokens, output_tokens := u.output_tokens,
                  total_tokens := u.total_tokens } ∧
        (convert_openai_response_to_chat_response
            (oneToolCallResponse id name args content fr u)).map ChatResponse.finish_reason
          = .ok fr ∧
        (∀ c, content = some c → c ≠ "" →
          (convert_openai_response_to_chat_response
              (oneToolCallResponse id name args content fr u)).map ChatResponse.content
            = .ok [.text c, .toolCall id name v]) ∧
        (content = none →
          (convert_openai_response_to_chat_response
              (oneToolCallResponse id name args content fr u)).map ChatResponse.content
            = .ok [.toolCall id name v]) := by
  intro h
  refine ⟨?_, ?_, ?_, ?_, ?_⟩
  · simp [oneToolCallResponse, convert_openai_response_to_chat_response, parseToolCallList, Except.map, h]
  · simp [oneToolCallResponse, convert_openai_response_to_chat_response, parseToolCallList, Except.map, h]
  · simp [oneToolCallResponse, convert_openai_response_to_chat_response, parseToolCallList, Except.map, h]
  · intro c hc hne
    subst hc
    simp [oneToolCallResponse, convert_openai_response_to_chat_response, parseToolCallList,
      Except.map, h, hne]
  · intro hc
    subst hc
    simp [oneToolCallResponse, convert_openai_response_to_chat_response, parseToolCallList, Except.map, h]

/-- C6 witness: one tool call with the arguments object of the spec. -/
theorem C6_witness :
    (convert_openai_response_to_chat_response
          (oneToolCallResponse "call_1" "get_weather" "\x7b\"arg1\":\"value1\"\x7d"
            (some "Using tool") (some "tool_calls") ⟨10, 5, 15⟩)).map ChatResponse.tool_calls
        = .ok (some [{ id := "call_1", name := "get_weather",
                       arguments := Json.obj [("arg1", Json.str "value1")] }]) ∧
      (convert_openai_response_to_chat_response
          (oneToolCallResponse "call_1" "get_weather" "\x7b\"arg1\":\"value1\"\x7d"
            (some "Using tool") (some "tool_calls") ⟨10, 5, 15⟩)).map ChatResponse.usage
        = .ok ⟨10, 5, 15⟩ ∧
      (convert_openai_response_to_chat_response
          (oneToolCallResponse "call_1" "get_weather" "\x7b\"arg1\":\"value1\"\x7d"
            (some "Using tool") (some "tool_calls") ⟨10, 5, 15⟩)).map ChatResponse.finish_reason
        = .ok (some "tool_calls") ∧
      (convert_openai_response_to_chat_response
          (oneToolCallResponse "call_1" "get_weather" "\x7b\"arg1\":\"value1\"\x7d"
            (some "Using tool") (some "tool_calls") ⟨10, 5, 15⟩)).map ChatResponse.content
        = .ok [.text "Using tool",
               .toolCall "call_1" "get_weather" (Json.obj [("arg1", Json.str "value1")])] :=
  ⟨(C6_response_translation "call_1" "get_weather" "\x7b\"arg1\":\"value1\"\x7d"
      (Json.obj [("arg1", Json.str "value1")]) (some "Using tool") (some "tool_calls")
      ⟨10, 5, 15⟩ rfl).1,
   (C6_response_translation "call_1" "get_weather" "\x7b\"arg1\":\"value1\"\x7d"
      (Json.obj [("arg1", Json.str "value1")]) (some "Using tool") (some "tool_calls")
      ⟨10, 5, 15⟩ rfl).2.1,
   (C6_response_translation "call_1" "get_weather" "\x7b\"arg1\":\"value1\"\x7d"
      (Json.obj [("arg1", Json.str "value1")]) (some "Using tool") (some "tool_calls")
      ⟨10, 5, 15⟩ rfl).2.2.1,
   (C6_response_translation "call_1" "get_weather" "\x7b\"arg1\":\"value1\"\x7d"
      (Json.obj [("arg1", Json.str "value1")]) (some "Using tool") (some "tool_calls")
      ⟨10, 5, 15⟩ rfl).2.2.2.1 "Using tool" rfl (by decide)⟩

/-- C9 counterexample: a request-specified max-output-tokens of zero is
falsy in the source truthiness test, so the configured default wins and
the wire value does not equal the request value. -/
theorem C9_counterexample :
    (completeParams (Provider.ofConfig {})
        { messages := [{ role := .user, content := "Hi" }], max_output_tokens := some 0 }
        {} none).max_tokens = some 2048 ∧
      ¬ ((completeParams (Provider.ofConfig {})
        { messages := [{ role := .user, content := "Hi" }], max_output_tokens := some 0 }
        {} none).max_tokens = some 0) := by
  decide

/-- C9 amended: a truthy (nonzero) request max-output-tokens overrides
the per-call and configured values; a request temperature overrides
whenever it is specified, including zero; otherwise the per-call option
or configured default is used when nonzero, the key being omitted when
that fallback is zero; a request max-output-tokens of zero is treated as
unspecified. -/
theorem C9_generation_limits (p : Provider) (request : ChatRequest) (kw : Kwargs)
    (manager : Option Manager) :
    (∀ n, request.max_output_tokens = some n → n ≠ 0 →
      (completeParams p request kw manager).max_tokens = some n) ∧
    (truthyNat request.max_output_tokens = false →
      ∀ m, kw.max_tokens = some m → m ≠ 0 →
        (completeParams p request kw manager).max_tokens = some m) ∧
    (truthyNat request.max_output_tokens = false → kw.max_tokens = none → p.max_tokens ≠ 0 →
      (completeParams p request kw manager).max_tokens = some p.max_tokens) ∧
    (∀ t, request.temperature = some t →
      (completeParams p request kw manager).temperature = some t) ∧
    (request.temperature = none →
      ∀ t, kw.temperature = some t → t ≠ 0 →
        (completeParams p request kw manager).temperature = some t) ∧
    (request.temperature = none → kw.temperature = none → p.temperature ≠ 0 →
      (completeParams p request kw manager).temperature = some p.temperature) := by
  refine ⟨fun n hn hne => ?_, fun ht m hm hme => ?_, fun ht hk hp => ?_,
    fun t htemp => ?_, fun htemp t hk hne => ?_, fun htemp hk hp => ?_⟩ <;>
    simp_all [completeParams, prepare_openai_params, truthyNat]

/-- C9 witness: a nonzero request token limit and a zero request
temperature both override the configured defaults. -/
theorem C9_witness :
    (completeParams (Provider.ofConfig {})
        { messages := [{ role := .user, content := "Hi" }]
          max_output_tokens := some 100, temperature := some 0 } {} none).max_tokens
      = some 100 ∧
    (completeParams (Provider.ofConfig {})
        { messages := [{ role := .user, content := "Hi" }]
          max_output_tokens := some 100, temperature := some 0 } {} none).temperature
      = some 0 :=
  ⟨(C9_generation_limits _ _ _ _).1 100 rfl (by decide),
   (C9_generation_limits _ _ _ _).2.2.2.1 0 rfl⟩

/-- C10: a tool call whose arguments string is not valid JSON makes the
response translation raise, and a complete run whose network call
succeeds with such a response re-raises that exception through the
generic handler as an API-kind failure instead of returning a chat
response. -/
theorem C10_invalid_tool_arguments (id name args : String) (content fr : Option String)
    (u : OAUsage) (p : Provider) (request : ChatRequest) (kw : Kwargs)
    (manager : Option Manager) :
    jsonLoads args = none →
      convert_openai_response_to_chat_response (oneToolCallResponse id name args content fr u)
          = .error (.jsonDecodeError args) ∧
        (complete p request kw manager
            (fun _ _ => .success (oneToolCallResponse id name args content fr u))).1
          = .error (.pyErr (.jsonDecodeError args)) ∧
        (CompleteExc.pyErr (.jsonDecodeError args)).isApiKind = true := by
  intro h
  have hconv : convert_openai_response_to_chat_response
      (oneToolCallResponse id name args content fr u) = .error (.jsonDecodeError args) := by
    simp [oneToolCallResponse, convert_openai_response_to_chat_response, parseToolCallList, Except.map, h]
  exact ⟨hconv, by simp [complete, hconv], rfl⟩

/-- C10 witness: a concrete non-JSON arguments string. -/
theorem C10_witness :
    convert_openai_response_to_chat_response
        (oneToolCallResponse "call_1" "get_weather" "not json" none (some "tool_calls")
          ⟨10, 5, 15⟩) = .error (.jsonDecodeError "not json") ∧
      (complete (Provider.ofConfig {}) { messages := [{ role := .user, content := "Hi" }] } {}
          none (fun _ _ => .success (oneToolCallResponse "call_1" "get_weather" "not json"
            none (some "tool_calls") ⟨10, 5, 15⟩))).1
        = .error (.pyErr (.jsonDecodeError "not json")) :=
  ⟨(C10_invalid_tool_arguments "call_1" "get_weather" "not json" none (some "tool_calls")
      ⟨10, 5, 15⟩ (Provider.ofConfig {}) { messages := [{ role := .user, content := "Hi" }] }
      {} none rfl).1,
   (C10_invalid_tool_arguments "call_1" "get_weather" "not json" none (some "tool_calls")
      ⟨10, 5, 15⟩ (Provider.ofConfig {}) { messages := [{ role := .user, content := "Hi" }] }
      {} none rfl).2.1⟩

end FoundryLocal
